import Mathlib

/-!
Verification of the `fastapi_app/main.py` service of blueswen/fastapi-jaeger.

The source is a small FastAPI application: eight GET endpoints, two
downstream host names read from the environment at start-up, and a `chain`
endpoint that injects the current trace context into a fresh header mapping
and issues three sequential outbound HTTP GETs carrying those headers.

The embedding below models each handler as a pure Lean function.  Effects
are made explicit:
* randomness (`random.choice`, `random.randint`) becomes a function of the
  drawn index;
* `time.sleep(d)` becomes the duration `d` returned as part of the result;
* outbound HTTP (`httpx.AsyncClient.get`) becomes an oracle
  `net : HttpCall → CallResult`; `httpx` returns a response object for any
  HTTP status code (it raises only on transport/connection failure — the
  code never calls `raise_for_status`), so a `CallResult` is either a
  response with a status or a transport error;
* trace-context injection (`opentelemetry.propagate.inject`) becomes a
  function `inj : Headers → Headers` applied to the fresh empty mapping;
* an uncaught exception in a handler becomes `Except.error`.
-/

deriving instance DecidableEq for Except

namespace FastApiApp

/-- A scalar JSON value.  Every object payload this application returns is a
flat mapping from keys to scalars, so scalars are all an object needs. -/
inductive JsonAtom where
  | null : JsonAtom
  | str : String → JsonAtom
  | int : Int → JsonAtom
deriving DecidableEq, Repr

/-- A JSON payload as this application produces them: either a bare JSON
string (the `io_task`/`cpu_task` results) or a flat object. -/
inductive Json where
  | str : String → Json
  | obj : List (String × JsonAtom) → Json
deriving DecidableEq, Repr

/-- Look up a key of an object payload. -/
def Json.field : Json → String → Option JsonAtom
  | .obj kvs, k => kvs.lookup k
  | _, _ => none

/-- HTTP header mapping, as a list of name/value pairs. -/
abbrev Headers := List (String × String)

/-- An outbound HTTP GET request issued by the application. -/
structure HttpCall where
  url : String
  headers : Headers
deriving DecidableEq, Repr

/-- Outcome of an outbound GET.  `httpx` returns a response object carrying
the status code for any HTTP status (non-2xx included) and raises only on
transport/connection failure. -/
inductive CallResult where
  | response (status : Nat) : CallResult
  | transportError : CallResult
deriving DecidableEq, Repr

/-- Whether the outbound call returned a response (of any status) rather
than raising a transport error. -/
def CallResult.isResponse : CallResult → Bool
  | .response _ => true
  | .transportError => false

/-- Application-level faults: a raised `ValueError`, or a transport error
propagating out of an outbound call. -/
inductive AppError where
  | valueError (msg : String)
  | transportError
deriving DecidableEq, Repr

/-- Environment-driven configuration, read once at module import
(main.py lines 25–41).  Only the fields the verified claims touch. -/
structure Config where
  appName : String
  exposePort : Nat
  targetOneHost : String
  targetTwoHost : String
deriving DecidableEq, Repr

/-- The port `uvicorn.run` listens on: `EXPOSE_PORT` (main.py line 173). -/
def serverPort (cfg : Config) : Nat := cfg.exposePort

/-- `random.choice(xs)`: pick the element at a (uniformly drawn) index. -/
def choice (xs : List α) (i : Fin xs.length) : α := xs.get i

/-- `random.randint(a, b)`: a uniformly drawn integer from the inclusive
range `[a, b]` — both endpoints included, `b + 1 - a` possible values. -/
def randint (a b : Nat) (i : Fin (b + 1 - a)) : Nat := a + i.val

/-- Handler of `GET /` (main.py lines 94–97): returns `{"Hello": "World"}`
with the framework-default status 200. -/
def read_root : Nat × Json := (200, .obj [("Hello", .str "World")])

/-- Handler of `GET /items/{item_id}` (main.py lines 100–103): echoes the
integer path parameter and the optional query string, `null` when absent;
framework-default status 200. -/
def read_item (item_id : Int) (q : Option String) : Nat × Json :=
  (200, .obj [("item_id", .int item_id),
              ("q", match q with | some s => .str s | none => .null)])

/-- Handler of `GET /io_task` (main.py lines 106–110): `time.sleep(1)` then
the fixed completion string.  Result: (seconds slept, payload). -/
def io_task : Nat × Json := (1, .str "IO bound task finish!")

/-- The loop of `cpu_task` (main.py lines 115–116):
`for i in range(1000): _ = i * i * i` — each cube is computed and
discarded; modelled as the list of the computed values. -/
def cpu_task_loop (n : Nat) : List Nat := (List.range n).map fun i => i * i * i

/-- Handler of `GET /cpu_task` (main.py lines 113–118): run the fixed-size
computation loop, then the fixed completion string.
Result: (values computed by the loop, payload). -/
def cpu_task : List Nat × Json := (cpu_task_loop 1000, .str "CPU bound task finish!")

/-- The list `random.choice` draws from in `random_status` (main.py
line 123): 200 appears twice, so it carries weight 2 of 5. -/
def random_status_choices : List Nat := [200, 200, 300, 400, 500]

/-- Handler of `GET /random_status` (main.py lines 121–125): the status is
`random.choice([200, 200, 300, 400, 500])` (the drawn index is `i`); the
body is always `{"path": "/random_status"}`. -/
def random_status (i : Fin 5) : Nat × Json :=
  (choice random_status_choices i, .obj [("path", .str "/random_status")])

/-- Handler of `GET /random_sleep` (main.py lines 128–132):
`time.sleep(random.randint(0, 5))` then a fixed payload, status 200.
Result: (seconds slept, (status, payload)). -/
def random_sleep (i : Fin 6) : Nat × (Nat × Json) :=
  (randint 0 5 i, (200, .obj [("path", .str "/random_sleep")]))

/-- Handler of `GET /error_test` (main.py lines 135–138; the source reuses
the function name `random_sleep` for it): unconditionally raises
`ValueError("value error")`. -/
def error_test : Except AppError Json := .error (.valueError "value error")

/-- Status surfaced to the client by the framework: 200 for a plain
successful return, 500 when an exception escapes the handler (the
framework's behavior for uncaught errors). -/
def surfacedStatus : Except AppError Json → Nat
  | .ok _ => 200
  | .error _ => 500

/-- First outbound URL of `chain` (main.py line 150): the f-string
`f"http://localhost:8000/"` — port 8000 is a literal, `EXPOSE_PORT` is not
interpolated. -/
def chainUrl1 (_cfg : Config) : String := "http://localhost:8000/"

/-- Second outbound URL of `chain` (main.py line 155): the f-string
`f"http://{TARGET_ONE_HOST}:8000/io_task"`. -/
def chainUrl2 (cfg : Config) : String :=
  "http://" ++ cfg.targetOneHost ++ ":8000/io_task"

/-- Third outbound URL of `chain` (main.py line 160): the f-string
`f"http://{TARGET_TWO_HOST}:8000/cpu_task"`. -/
def chainUrl3 (cfg : Config) : String :=
  "http://" ++ cfg.targetTwoHost ++ ":8000/cpu_task"

/-- Handler of `GET /chain` (main.py lines 141–164).
`headers = {}` then `inject(headers)` — modelled as `inj []`, one injection
into a fresh mapping — followed by three sequential awaited GETs, each
carrying `headers`.  `net` gives each issued call's outcome; a transport
error is uncaught, so it aborts the remaining calls and propagates.
Returns (the outbound calls actually issued, in order of issue, the
handler's result). -/
def chain (cfg : Config) (inj : Headers → Headers) (net : HttpCall → CallResult) :
    List HttpCall × Except AppError Json :=
  let headers := inj []
  let c1 : HttpCall := ⟨chainUrl1 cfg, headers⟩
  match net c1 with
  | .transportError => ([c1], .error .transportError)
  | .response _ =>
    let c2 : HttpCall := ⟨chainUrl2 cfg, headers⟩
    match net c2 with
    | .transportError => ([c1, c2], .error .transportError)
    | .response _ =>
      let c3 : HttpCall := ⟨chainUrl3 cfg, headers⟩
      match net c3 with
      | .transportError => ([c1, c2, c3], .error .transportError)
      | .response _ => ([c1, c2, c3], .ok (.obj [("path", .str "/chain")]))

/-- A call outcome with `isResponse = true` is a response with some status. -/
theorem isResponse_exists {r : CallResult} (h : r.isResponse = true) :
    ∃ s, r = .response s := by
  cases r with
  | response s => exact ⟨s, rfl⟩
  | transportError => simp [CallResult.isResponse] at h

/-- C1: when every outbound call is awaited to completion (the network
answers each call with a response), a `chain` invocation issues exactly
three outbound GETs, in the fixed order: the local root endpoint
`http://localhost:8000/`, then `http://{first target host}:8000/io_task`,
then `http://{second target host}:8000/cpu_task`; the trace order is the
issue order, each call issued only after the previous one returned. -/
theorem chain_issues_three_calls_in_order (cfg : Config) (inj : Headers → Headers)
    (net : HttpCall → CallResult) (h : ∀ c : HttpCall, (net c).isResponse = true) :
    (chain cfg inj net).1 =
      [⟨"http://localhost:8000/", inj []⟩,
       ⟨"http://" ++ cfg.targetOneHost ++ ":8000/io_task", inj []⟩,
       ⟨"http://" ++ cfg.targetTwoHost ++ ":8000/cpu_task", inj []⟩] := by
  obtain ⟨s1, h1⟩ := isResponse_exists (h ⟨chainUrl1 cfg, inj []⟩)
  obtain ⟨s2, h2⟩ := isResponse_exists (h ⟨chainUrl2 cfg, inj []⟩)
  obtain ⟨s3, h3⟩ := isResponse_exists (h ⟨chainUrl3 cfg, inj []⟩)
  simp only [chain, h1, h2, h3]
  rfl

/-- Witness for C1 at a concrete configuration and an all-200 network. -/
theorem chain_issues_three_calls_in_order_witness :
    (chain ⟨"app", 8000, "app-b", "app-c"⟩ (fun h => h) (fun _ => .response 200)).1 =
      [⟨"http://localhost:8000/", []⟩,
       ⟨"http://app-b:8000/io_task", []⟩,
       ⟨"http://app-c:8000/cpu_task", []⟩] := by
  exact chain_issues_three_calls_in_order ⟨"app", 8000, "app-b", "app-c"⟩
    (fun h => h) (fun _ => .response 200) (fun _ => rfl)

/-- C2: within one `chain` invocation the carrier is the fresh empty
mapping passed once through the injection; every outbound call issued —
whether the invocation completes or aborts early — carries exactly that
mapping, with no re-injection or mutation between the calls. -/
theorem chain_same_carrier_on_every_call (cfg : Config) (inj : Headers → Headers)
    (net : HttpCall → CallResult) :
    ∀ c ∈ (chain cfg inj net).1, c.headers = inj [] := by
  cases h1 : net ⟨chainUrl1 cfg, inj []⟩ <;>
    cases h2 : net ⟨chainUrl2 cfg, inj []⟩ <;>
      cases h3 : net ⟨chainUrl3 cfg, inj []⟩ <;>
        simp [chain, h1, h2, h3]

/-- Witness for C2: the first call of a concrete invocation carries the
injected carrier. -/
theorem chain_same_carrier_on_every_call_witness :
    HttpCall.headers ⟨"http://localhost:8000/", [("traceparent", "00-abc")]⟩ =
      (fun h => ("traceparent", "00-abc") :: h) [] := by
  exact chain_same_carrier_on_every_call ⟨"app", 8000, "app-b", "app-c"⟩
    (fun h => ("traceparent", "00-abc") :: h) (fun _ => .response 200)
    ⟨"http://localhost:8000/", [("traceparent", "00-abc")]⟩ (by decide)

/-- C3 counterexample: `httpx` raises only on transport errors, never on a
non-2xx status, and the code never checks the status.  With the second
call answering HTTP 500 — a failure per the claim — the third call is
still issued and the handler returns the full success payload, so a
non-2xx response neither propagates nor stops the chain. -/
theorem chain_non2xx_not_a_failure :
    (fun c : HttpCall =>
        if c.url = "http://app-b:8000/io_task" then CallResult.response 500
        else CallResult.response 200)
      ⟨chainUrl2 ⟨"app", 8000, "app-b", "app-c"⟩, []⟩ = .response 500 ∧
    (chain ⟨"app", 8000, "app-b", "app-c"⟩ (fun h => h) (fun c =>
        if c.url = "http://app-b:8000/io_task" then .response 500
        else .response 200)).1.length = 3 ∧
    (chain ⟨"app", 8000, "app-b", "app-c"⟩ (fun h => h) (fun c =>
        if c.url = "http://app-b:8000/io_task" then .response 500
        else .response 200)).2 = .ok (.obj [("path", .str "/chain")]) := by
  decide

/-- C3 (amended): a transport/connection error on any of the three
outbound calls is not caught: the remaining calls are not issued (in
particular, if the second call errors the third is never made), there is
no retry, and the error propagates as the handler's failure with no
partial-success result; a non-2xx response, however, does not abort the
chain. -/
theorem chain_transport_error_aborts (cfg : Config) (inj : Headers → Headers)
    (net : HttpCall → CallResult) :
    (net ⟨chainUrl1 cfg, inj []⟩ = .transportError →
      chain cfg inj net =
        ([⟨chainUrl1 cfg, inj []⟩], .error .transportError)) ∧
    ((net ⟨chainUrl1 cfg, inj []⟩).isResponse = true →
      net ⟨chainUrl2 cfg, inj []⟩ = .transportError →
      chain cfg inj net =
        ([⟨chainUrl1 cfg, inj []⟩, ⟨chainUrl2 cfg, inj []⟩],
         .error .transportError)) ∧
    ((net ⟨chainUrl1 cfg, inj []⟩).isResponse = true →
      (net ⟨chainUrl2 cfg, inj []⟩).isResponse = true →
      net ⟨chainUrl3 cfg, inj []⟩ = .transportError →
      chain cfg inj net =
        ([⟨chainUrl1 cfg, inj []⟩, ⟨chainUrl2 cfg, inj []⟩,
          ⟨chainUrl3 cfg, inj []⟩], .error .transportError)) := by
  refine ⟨fun h1 => ?_, fun h1 h2 => ?_, fun h1 h2 h3 => ?_⟩
  · simp [chain, h1]
  · obtain ⟨s1, hs1⟩ := isResponse_exists h1
    simp [chain, hs1, h2]
  · obtain ⟨s1, hs1⟩ := isResponse_exists h1
    obtain ⟨s2, hs2⟩ := isResponse_exists h2
    simp [chain, hs1, hs2, h3]

/-- Witness for the amended C3: with the second call failing at the
transport level, the concrete invocation stops after two calls and
propagates the error. -/
theorem chain_transport_error_aborts_witness :
    chain ⟨"app", 8000, "app-b", "app-c"⟩ (fun h => h)
      (fun c => if c.url = "http://app-b:8000/io_task" then .transportError
                else .response 200) =
    ([⟨"http://localhost:8000/", []⟩, ⟨"http://app-b:8000/io_task", []⟩],
     .error .transportError) := by
  exact (chain_transport_error_aborts ⟨"app", 8000, "app-b", "app-c"⟩ (fun h => h)
    (fun c => if c.url = "http://app-b:8000/io_task" then .transportError
              else .response 200)).2.1 (by decide) (by decide)

/-- C4: the status of `random_status` is the element at a uniformly drawn
index of the 5-element list `[200, 200, 300, 400, 500]`: it is always one
of 200, 300, 400, 500, and of the 5 equiprobable draws exactly 2 yield 200
and exactly 1 yields each of 300, 400, 500 — the 2:1:1:1 weighting, i.e.
probability 2/5 for 200 and 1/5 for each of the others. -/
theorem random_status_weighted_codes :
    (∀ i : Fin 5, (random_status i).1 ∈ ([200, 300, 400, 500] : List Nat)) ∧
    random_status_choices.length = 5 ∧
    (Finset.univ.filter fun i : Fin 5 => (random_status i).1 = 200).card = 2 ∧
    (Finset.univ.filter fun i : Fin 5 => (random_status i).1 = 300).card = 1 ∧
    (Finset.univ.filter fun i : Fin 5 => (random_status i).1 = 400).card = 1 ∧
    (Finset.univ.filter fun i : Fin 5 => (random_status i).1 = 500).card = 1 := by
  decide

/-- C5: `read_item` responds 200 with the path id unchanged under key
`item_id` and the query string echoed under key `q` (`null` when omitted);
in particular `/items/42?q=foo` yields `{"item_id": 42, "q": "foo"}`. -/
theorem read_item_echoes (item_id : Int) (q : Option String) :
    (read_item item_id q).1 = 200 ∧
    (read_item item_id q).2.field "item_id" = some (.int item_id) ∧
    (read_item item_id q).2.field "q" =
      some (match q with | some s => JsonAtom.str s | none => .null) ∧
    read_item 42 (some "foo") =
      (200, .obj [("item_id", .int 42), ("q", .str "foo")]) := by
  refine ⟨rfl, ?_, ?_, rfl⟩ <;> cases q <;> rfl

/-- C6: `error_test` fails unconditionally: its result is the raised
`ValueError("value error")`, never a success payload, and the framework
surfaces the uncaught exception as status 500. -/
theorem error_test_always_fails :
    error_test = .error (.valueError "value error") ∧
    surfacedStatus error_test = 500 ∧
    error_test.isOk = false :=
  ⟨rfl, rfl, rfl⟩

/-- C7: `random_sleep` always returns: for every draw it sleeps
`randint(0, 5)` time units — at most 5, with exactly the six values
0, 1, 2, 3, 4, 5 reachable, endpoints included — and then responds 200
with its fixed payload. -/
theorem random_sleep_bounded_and_returns :
    (∀ i : Fin 6, (random_sleep i).1 ≤ 5) ∧
    Finset.image (fun i : Fin 6 => (random_sleep i).1) Finset.univ =
      ({0, 1, 2, 3, 4, 5} : Finset Nat) ∧
    (∀ i : Fin 6,
      (random_sleep i).2 = (200, .obj [("path", .str "/random_sleep")])) := by
  decide

/-- C8: `io_task` sleeps its fixed 1 time unit and returns exactly
"IO bound task finish!"; `cpu_task` runs its fixed 1000-iteration loop
(computing and discarding `i * i * i` for each `i < 1000`) and returns
exactly "CPU bound task finish!"; neither takes any input. -/
theorem io_and_cpu_task_fixed_results :
    io_task = (1, .str "IO bound task finish!") ∧
    cpu_task.2 = .str "CPU bound task finish!" ∧
    cpu_task.1.length = 1000 ∧
    cpu_task.1 = (List.range 1000).map (fun i => i * i * i) := by
  refine ⟨rfl, rfl, ?_, ?_⟩ <;> simp [cpu_task, cpu_task_loop]

/-- C9: the three URLs `chain` builds are unchanged under any value of
`EXPOSE_PORT` and carry the hardcoded literal port 8000, while the server
listens on `EXPOSE_PORT`; so whenever `EXPOSE_PORT ≠ 8000` the self-call
targets a port that is not the one the service itself listens on. -/
theorem chain_urls_hardcode_port_8000 (cfg : Config) (p : Nat) :
    chainUrl1 { cfg with exposePort := p } = chainUrl1 cfg ∧
    chainUrl2 { cfg with exposePort := p } = chainUrl2 cfg ∧
    chainUrl3 { cfg with exposePort := p } = chainUrl3 cfg ∧
    chainUrl1 cfg = "http://localhost:8000/" ∧
    ("http://localhost:8000/" : String) =
      "http://localhost:" ++ toString (8000 : Nat) ++ "/" ∧
    chainUrl2 cfg = "http://" ++ cfg.targetOneHost ++ ":8000/io_task" ∧
    chainUrl3 cfg = "http://" ++ cfg.targetTwoHost ++ ":8000/cpu_task" ∧
    serverPort cfg = cfg.exposePort ∧
    (cfg.exposePort ≠ 8000 → serverPort cfg ≠ 8000) :=
  ⟨rfl, rfl, rfl, rfl, rfl, rfl, rfl, rfl, fun h => h⟩

/-- Witness for C9: a service configured to listen on port 9000 does not
listen on the port 8000 hardcoded in the chain URLs. -/
theorem chain_urls_hardcode_port_8000_witness :
    serverPort ⟨"app", 9000, "app-b", "app-c"⟩ ≠ 8000 :=
  (chain_urls_hardcode_port_8000 ⟨"app", 9000, "app-b", "app-c"⟩ 1234).2.2.2.2.2.2.2.2
    (by decide)

/-- C10: the body of `random_status` is the fixed object
`{"path": "/random_status"}` for every possible draw — in particular also
when the drawn status is 400 or 500 — independent of the chosen status. -/
theorem random_status_body_fixed :
    (∀ i : Fin 5,
      (random_status i).2 = .obj [("path", .str "/random_status")]) ∧
    (∃ i : Fin 5, (random_status i).1 = 400) ∧
    (∃ i : Fin 5, (random_status i).1 = 500) := by
  decide

end FastApiApp
